import Mathlib

/-
Verification development for the esp32_remote_control core engine
(src/src/esp32_rc.cpp, src/src/esp32_rc_espnow.cpp, src/src/esp32_rc_wifi.cpp,
src/src/esp32_rc_nrf24.cpp, src/include/esp32_rc_common.h, src/include/esp32_rc.h).

Modelling conventions:
- Bytes and millisecond clocks are Nat.  The millis() clock is modelled as a
  monotone Nat value passed explicitly to every time-dependent operation; every
  concrete instantiation below keeps now at or above every stored timestamp, so
  the 32-bit unsigned subtractions of the C code agree with Nat subtraction.
- The 32-bit floats of RCPayload_t are carried as their four raw bytes
  (structure Float32Bits); the engine only ever memcpy-s them, so bit-level
  identity is exactly byte-level identity.
- FreeRTOS queues are bounded lists (front = oldest).  xQueueSend appends when
  the queue holds fewer than its capacity, xQueueReceive pops the front,
  xQueueOverwrite replaces the single slot.  The sequential model corresponds
  to a run without concurrent interference; for the one code path whose
  behaviour the spec describes under interference (inbound enqueue failure),
  the bookkeeping is additionally factored over the explicit boolean outcomes
  of the three queue primitives (reliableRecvBookkeeping / reliableEnqueueOk).
- The recursive data lock is always acquired in the sequential model.
-/

-- ========== Constants (src/include/esp32_rc_common.h) ==========

def RC_MESSAGE_MAX_SIZE : Nat := 32

def RC_PAYLOAD_MAX_SIZE : Nat := 25

def RC_ADDR_SIZE : Nat := 6

def RC_MAX_ADDR_SIZE : Nat := 16

def QUEUE_DEPTH_SEND : Nat := 10

def QUEUE_DEPTH_RECV : Nat := 10

def HEARTBEAT_INTERVAL_MS : Nat := 100

def HEARTBEAT_TIMEOUT_MS : Nat := 300

def RCMSG_TYPE_DATA : Nat := 0

def RCMSG_TYPE_HEARTBEAT : Nat := 3

/-- Modelled from the spec: the WiFi backend's network-address-discovery
message type.  The identifier RCMSG_TYPE_IP_DISCOVERY is referenced by
src/src/esp32_rc_wifi.cpp but its definition is not present under src/;
the spec reserves the gap between DATA = 0 and HEARTBEAT = 3 for such
backend-specific system types, so it is modelled as the value 1. -/
def RCMSG_TYPE_IP_DISCOVERY : Nat := 1

-- ========== Payload and message layout ==========

/-- The raw four bytes of one 32-bit float field of RCPayload_t.  The engine
moves payloads only by memcpy, so a float is exactly its byte pattern here. -/
structure Float32Bits where
  b0 : Nat
  b1 : Nat
  b2 : Nat
  b3 : Nat
  deriving DecidableEq

/-- RCPayload_t (src/include/esp32_rc_common.h lines 97-108): 4 id bytes,
5 packed 32-bit floats, 1 flags byte; 25 bytes, packed, no padding. -/
structure RCPayload_t where
  id1 : Nat
  id2 : Nat
  id3 : Nat
  id4 : Nat
  value1 : Float32Bits
  value2 : Float32Bits
  value3 : Float32Bits
  value4 : Float32Bits
  value5 : Float32Bits
  flags : Nat
  deriving DecidableEq

/-- The 25-byte packed wire image of an RCPayload_t, in declaration order
exactly as the packed struct lays it out. -/
def RCPayload_t.toBytes (p : RCPayload_t) : List Nat :=
  [p.id1, p.id2, p.id3, p.id4,
   p.value1.b0, p.value1.b1, p.value1.b2, p.value1.b3,
   p.value2.b0, p.value2.b1, p.value2.b2, p.value2.b3,
   p.value3.b0, p.value3.b1, p.value3.b2, p.value3.b3,
   p.value4.b0, p.value4.b1, p.value4.b2, p.value4.b3,
   p.value5.b0, p.value5.b1, p.value5.b2, p.value5.b3,
   p.flags]

/-- Reading an RCPayload_t back out of a 25-byte buffer, as the memcpy in
recvData (src/src/esp32_rc.cpp line 670) does: byte i of the buffer lands in
the field occupying offset i of the packed struct. -/
def RCPayload_t.ofBytes (bs : List Nat) : RCPayload_t :=
  { id1 := bs.getD 0 0, id2 := bs.getD 1 0, id3 := bs.getD 2 0, id4 := bs.getD 3 0,
    value1 := ⟨bs.getD 4 0, bs.getD 5 0, bs.getD 6 0, bs.getD 7 0⟩,
    value2 := ⟨bs.getD 8 0, bs.getD 9 0, bs.getD 10 0, bs.getD 11 0⟩,
    value3 := ⟨bs.getD 12 0, bs.getD 13 0, bs.getD 14 0, bs.getD 15 0⟩,
    value4 := ⟨bs.getD 16 0, bs.getD 17 0, bs.getD 18 0, bs.getD 19 0⟩,
    value5 := ⟨bs.getD 20 0, bs.getD 21 0, bs.getD 22 0, bs.getD 23 0⟩,
    flags := bs.getD 24 0 }

/-- RCMessage_t (src/include/esp32_rc_common.h lines 116-133): 1 type byte,
6 sender-address bytes, 25 payload bytes = 32 bytes packed. -/
structure RCMessage_t where
  type : Nat
  from_addr : List Nat
  payload : List Nat
  deriving DecidableEq

/-- RCMessage_t::setPayload: memcpy of the packed payload into the message's
payload buffer. -/
def RCMessage_t.setPayload (m : RCMessage_t) (p : RCPayload_t) : RCMessage_t :=
  { m with payload := p.toBytes }

/-- RCMessage_t::getPayload as consumed by recvData: reinterpret the 25
payload bytes as an RCPayload_t. -/
def RCMessage_t.getPayload (m : RCMessage_t) : RCPayload_t :=
  RCPayload_t.ofBytes m.payload

/-- The fully zeroed message produced by the value initialisation
RCMessage_t msg = {} in the backends' parseRawData. -/
def zeroMessage : RCMessage_t :=
  { type := 0, from_addr := List.replicate RC_ADDR_SIZE 0,
    payload := List.replicate RC_PAYLOAD_MAX_SIZE 0 }

-- ========== Address abstraction (src/include/esp32_rc_common.h 146-202) ==========

/-- RCAddress_t: 16 raw bytes plus an explicit used length. -/
structure RCAddress_t where
  data : List Nat
  size : Nat
  deriving DecidableEq

/-- The default-constructed RCAddress_t: size 0, all data bytes zeroed. -/
def RCAddress_t.empty : RCAddress_t :=
  { data := List.replicate RC_MAX_ADDR_SIZE 0, size := 0 }

/-- RCAddress_t::isValid: 0 < size and size at most 16. -/
def RCAddress_t.isValid (a : RCAddress_t) : Bool :=
  decide (0 < a.size ∧ a.size ≤ RC_MAX_ADDR_SIZE)

/-- RCAddress_t::isBroadcast: valid, and every used byte equals 0xFF. -/
def RCAddress_t.isBroadcast (a : RCAddress_t) : Bool :=
  a.isValid && (a.data.take a.size).all (fun b => b == 0xFF)

-- ========== Metrics (src/include/esp32_rc_common.h 218-283) ==========

/-- Metrics_t.  The counters in_, out and err are the legacy fields the
source keeps alongside successful/failed/total. -/
structure Metrics_t where
  successful : Nat
  failed : Nat
  total : Nat
  start_time_ms : Nat
  last_reset_ms : Nat
  in_ : Nat
  out : Nat
  err : Nat
  deriving DecidableEq

/-- The Metrics_t constructor: all counters zero, both timestamps set to the
current millis() value. -/
def Metrics_t.init (now : Nat) : Metrics_t :=
  { successful := 0, failed := 0, total := 0,
    start_time_ms := now, last_reset_ms := now, in_ := 0, out := 0, err := 0 }

/-- Metrics_t::addSuccess.  The guard flag is the extern bool
RC_METRICS_ENABLED that the inline methods in esp32_rc_common.h read; it is
passed explicitly because it is a global in the source. -/
def Metrics_t.addSuccess (enabled : Bool) (m : Metrics_t) : Metrics_t :=
  if !enabled then m
  else { m with successful := m.successful + 1, total := m.total + 1, out := m.out + 1 }

/-- Metrics_t::addFailure, guarded by the same extern RC_METRICS_ENABLED. -/
def Metrics_t.addFailure (enabled : Bool) (m : Metrics_t) : Metrics_t :=
  if !enabled then m
  else { m with failed := m.failed + 1, total := m.total + 1, err := m.err + 1 }

/-- Metrics_t::getTransactionRate (src/include/esp32_rc_common.h 255-259):
elapsed = millis() - start_time_ms; below one second the rate is 0, otherwise
total * 1000 / elapsed.  The float arithmetic of the source is modelled
exactly over the rationals. -/
def Metrics_t.getTransactionRate (m : Metrics_t) (now : Nat) : ℚ :=
  let elapsed_ms := now - m.start_time_ms
  if elapsed_ms < 1000 then 0 else (m.total * 1000 : ℚ) / (elapsed_ms : ℚ)

/-- Iterating addSuccess n times (a harness for stating how the rate depends
on the recorded transaction count). -/
def Metrics_t.addSuccessN (enabled : Bool) : Nat → Metrics_t → Metrics_t
  | 0, m => m
  | n + 1, m => (Metrics_t.addSuccessN enabled n m).addSuccess enabled

/-- Modelled from the spec: the trailing-window throughput estimate the spec
describes (50 slots of 100 ms, about the last 5 seconds of activity).  No
such activity buffer exists in Metrics_t under src/; this definition follows
the spec's words so it can be compared with the source's getTransactionRate.
Given the millisecond timestamps of the recorded transactions, only those
within the trailing 5000 ms of now count, and the rate is that count divided
by the 5-second window. -/
def trailingWindowRate (events : List Nat) (now : Nat) : ℚ :=
  (((events.filter (fun t => now - t ≤ 5000)).length : ℚ) * 1000) / 5000

-- ========== Global metrics switch ==========

/-- The two distinct global booleans the source uses around the metrics
switch: rc_metrics_enabled is defined in src/src/esp32_rc.cpp line 7 and is
what enableGlobalMetrics writes; RC_METRICS_ENABLED is declared extern in
src/include/esp32_rc_common.h line 218, is what Metrics_t::addSuccess and
addFailure read, and is defined in no translation unit under src/. -/
structure Globals where
  rc_metrics_enabled : Bool
  RC_METRICS_ENABLED : Bool
  deriving DecidableEq

/-- ESP32RemoteControl::enableGlobalMetrics (src/src/esp32_rc.cpp 854-857):
writes only the lowercase rc_metrics_enabled flag. -/
def ESP32RemoteControl.enableGlobalMetrics (enable : Bool) (g : Globals) : Globals :=
  { g with rc_metrics_enabled := enable }

-- ========== Connection state ==========

/-- RCConnectionState_t (src/include/esp32_rc_common.h 286-291). -/
inductive RCConnectionState_t where
  | DISCONNECTED
  | CONNECTING
  | CONNECTED
  | ERROR
  deriving DecidableEq

-- ========== FreeRTOS queue primitives over bounded lists ==========

/-- Non-blocking xQueueSend on a bounded queue: append if below capacity. -/
def xQueueSend (cap : Nat) (q : List RCMessage_t) (m : RCMessage_t) :
    Bool × List RCMessage_t :=
  if q.length < cap then (true, q ++ [m]) else (false, q)

/-- Non-blocking xQueueReceive: pop the oldest (front) entry. -/
def xQueueReceive (q : List RCMessage_t) : Option RCMessage_t × List RCMessage_t :=
  match q with
  | [] => (none, [])
  | m :: rest => (some m, rest)

/-- xQueueOverwrite on a depth-1 queue: the new message replaces whatever was
stored; it always succeeds. -/
def xQueueOverwrite (m : RCMessage_t) : List RCMessage_t :=
  [m]

-- ========== The engine state (class ESP32RemoteControl) ==========

/-- The mutable state of one ESP32RemoteControl engine.  callback_log records
the messages passed to the registered receive callback, so that callback
invocations are observable in the model. -/
structure Engine where
  conn_state : RCConnectionState_t
  fast_mode : Bool
  recv_capacity : Nat
  send_capacity : Nat
  queue_recv : List RCMessage_t
  queue_send : List RCMessage_t
  peer_addr : List Nat
  my_addr : List Nat
  last_heartbeat_rx_ms : Nat
  heartbeat_timeout_ms : Nat
  recv_metrics : Metrics_t
  send_metrics : Metrics_t
  callback_log : List RCMessage_t
  timer_active : Bool
  deriving DecidableEq

/-- The ESP32RemoteControl constructor (src/src/esp32_rc.cpp 31-95): state
DISCONNECTED, zeroed addresses, queue depth 1 in fast mode and 10 otherwise,
heartbeat timer created but not started. -/
def initEngine (fast_mode : Bool) (now : Nat) : Engine :=
  { conn_state := RCConnectionState_t.DISCONNECTED,
    fast_mode := fast_mode,
    recv_capacity := if fast_mode then 1 else QUEUE_DEPTH_RECV,
    send_capacity := if fast_mode then 1 else QUEUE_DEPTH_SEND,
    queue_recv := [], queue_send := [],
    peer_addr := List.replicate RC_ADDR_SIZE 0,
    my_addr := List.replicate RC_ADDR_SIZE 0,
    last_heartbeat_rx_ms := 0,
    heartbeat_timeout_ms := HEARTBEAT_TIMEOUT_MS,
    recv_metrics := Metrics_t.init now, send_metrics := Metrics_t.init now,
    callback_log := [], timer_active := false }

/-- ESP32RemoteControl::connect (src/src/esp32_rc.cpp 148-158): start the
heartbeat timer if not active and set the state to CONNECTING,
unconditionally on the current state. -/
def ESP32RemoteControl.connect (e : Engine) : Engine :=
  { e with timer_active := true, conn_state := RCConnectionState_t.CONNECTING }

/-- ESP32RemoteControl::setPeerAddr (src/src/esp32_rc.cpp 393-400): copy the
6-byte sender address into the stored peer address. -/
def ESP32RemoteControl.setPeerAddr (addr : List Nat) (e : Engine) : Engine :=
  { e with peer_addr := addr }

/-- The inbound enqueue of the reliable (non-fast) branch of onDataReceived
(src/src/esp32_rc.cpp 276-284): try a non-blocking send; on failure drop the
oldest entry non-blockingly and retry once.  Returns the final ok flag and
the resulting queue. -/
def reliableInboundEnqueue (cap : Nat) (q : List RCMessage_t) (msg : RCMessage_t) :
    Bool × List RCMessage_t :=
  let r1 := xQueueSend cap q msg
  if r1.1 then r1
  else
    match xQueueReceive r1.2 with
    | (some _, q2) => xQueueSend cap q2 msg
    | (none, q2) => (false, q2)

/-- The shared tail of the inbound path (src/src/esp32_rc.cpp 292-299): on
ok invoke the receive callback and record a receive success, otherwise record
a receive failure. -/
def recvCommonTail (enabled ok : Bool) (m : Metrics_t) (log : List RCMessage_t)
    (msg : RCMessage_t) : Metrics_t × List RCMessage_t :=
  if ok then (m.addSuccess enabled, log ++ [msg]) else (m.addFailure enabled, log)

/-- The metrics and callback bookkeeping of the reliable inbound branch as a
function of the final enqueue outcome ok (src/src/esp32_rc.cpp 286-299): the
branch-local failure recording at lines 286-289 followed by the shared tail
at lines 292-299. -/
def reliableRecvBookkeeping (enabled ok : Bool) (m : Metrics_t)
    (log : List RCMessage_t) (msg : RCMessage_t) : Metrics_t × List RCMessage_t :=
  let m1 := if ok then m else m.addFailure enabled
  recvCommonTail enabled ok m1 log msg

/-- The final enqueue outcome of the reliable inbound branch given the
boolean results of its three queue primitives (first xQueueSend, eviction
xQueueReceive, retry xQueueSend); under concurrent interference any of them
can fail.  In the sequential list model the outcomes are determined by
reliableInboundEnqueue. -/
def reliableEnqueueOk (ok1 evictOk ok2 : Bool) : Bool :=
  if ok1 then true else if evictOk then ok2 else false

/-- ESP32RemoteControl::onDataReceived (src/src/esp32_rc.cpp 248-302).
Under the (always-acquired) lock: adopt the sender as peer and become
CONNECTED if not connected, stamp liveness; heartbeats stop there; any other
type goes through the inbound queue (overwrite in fast mode, append with
oldest-eviction retry in reliable mode) followed by callback/metrics
bookkeeping. -/
def ESP32RemoteControl.onDataReceived (g : Globals) (now : Nat) (msg : RCMessage_t)
    (e : Engine) : Engine :=
  let e1 :=
    if e.conn_state ≠ RCConnectionState_t.CONNECTED then
      { ESP32RemoteControl.setPeerAddr msg.from_addr e with
        conn_state := RCConnectionState_t.CONNECTED }
    else e
  let e2 := { e1 with last_heartbeat_rx_ms := now }
  if msg.type = RCMSG_TYPE_HEARTBEAT then e2
  else
    if e2.fast_mode then
      let q := xQueueOverwrite msg
      let bk := recvCommonTail g.RC_METRICS_ENABLED true e2.recv_metrics e2.callback_log msg
      { e2 with queue_recv := q, recv_metrics := bk.1, callback_log := bk.2 }
    else
      let r := reliableInboundEnqueue e2.recv_capacity e2.queue_recv msg
      let bk := reliableRecvBookkeeping g.RC_METRICS_ENABLED r.1 e2.recv_metrics
        e2.callback_log msg
      { e2 with queue_recv := r.2, recv_metrics := bk.1, callback_log := bk.2 }

/-- ESP32RemoteControl::checkHeartbeat (src/src/esp32_rc.cpp 366-376): if the
time since the last receipt exceeds the timeout and the state is CONNECTED,
fall back to DISCONNECTED. -/
def ESP32RemoteControl.checkHeartbeat (now : Nat) (e : Engine) : Engine :=
  if e.heartbeat_timeout_ms < now - e.last_heartbeat_rx_ms then
    if e.conn_state = RCConnectionState_t.CONNECTED then
      { e with conn_state := RCConnectionState_t.DISCONNECTED }
    else e
  else e

/-- ESP32RemoteControl::sendMsg (src/src/esp32_rc.cpp 540-560): fast mode
overwrites the single outbound slot and always succeeds; reliable mode is a
non-blocking bounded enqueue that reports failure when full. -/
def ESP32RemoteControl.sendMsg (msg : RCMessage_t) (e : Engine) : Bool × Engine :=
  if e.fast_mode then
    (true, { e with queue_send := xQueueOverwrite msg })
  else
    let r := xQueueSend e.send_capacity e.queue_send msg
    (r.1, { e with queue_send := r.2 })

/-- The DATA envelope sendData builds (src/src/esp32_rc.cpp 623-630): type
DATA, this node's address, the payload memcpy-ed in via setPayload. -/
def buildDataMsg (my_addr : List Nat) (p : RCPayload_t) : RCMessage_t :=
  RCMessage_t.setPayload
    { type := RCMSG_TYPE_DATA, from_addr := my_addr,
      payload := List.replicate RC_PAYLOAD_MAX_SIZE 0 } p

/-- ESP32RemoteControl::sendData: build the DATA envelope and hand it to
sendMsg. -/
def ESP32RemoteControl.sendData (p : RCPayload_t) (e : Engine) : Bool × Engine :=
  ESP32RemoteControl.sendMsg (buildDataMsg e.my_addr p) e

/-- ESP32RemoteControl::sendSysMsg (src/src/esp32_rc.cpp 508-515): a
zero-payload system message of the given type from this node's address. -/
def ESP32RemoteControl.sendSysMsg (t : Nat) (e : Engine) : Engine :=
  (ESP32RemoteControl.sendMsg
    { type := t, from_addr := e.my_addr,
      payload := List.replicate RC_PAYLOAD_MAX_SIZE 0 } e).2

/-- The heartbeat timer tick (src/src/esp32_rc.cpp 480-487): send a heartbeat
through the normal send path, then run the timeout check. -/
def ESP32RemoteControl.heartbeatTimerCallback (now : Nat) (e : Engine) : Engine :=
  ESP32RemoteControl.checkHeartbeat now
    (ESP32RemoteControl.sendSysMsg RCMSG_TYPE_HEARTBEAT e)

/-- ESP32RemoteControl::recvMsg (src/src/esp32_rc.cpp 586-597): a bounded
short-wait dequeue from the inbound queue; in the model the wait is immediate
and the result reports whether a message was available. -/
def ESP32RemoteControl.recvMsg (e : Engine) : Option RCMessage_t × Engine :=
  match e.queue_recv with
  | [] => (none, e)
  | m :: rest => (some m, { e with queue_recv := rest })

/-- ESP32RemoteControl::recvData (src/src/esp32_rc.cpp 656-672): dequeue one
message; if none, report false; if its type is not DATA, report false with
the caller's buffer untouched (the message stays consumed); otherwise memcpy
the payload out and report true. -/
def ESP32RemoteControl.recvData (buf : RCPayload_t) (e : Engine) :
    Bool × RCPayload_t × Engine :=
  match ESP32RemoteControl.recvMsg e with
  | (none, e1) => (false, buf, e1)
  | (some m, e1) =>
    if m.type ≠ RCMSG_TYPE_DATA then (false, buf, e1)
    else (true, m.getPayload, e1)

-- ========== Backend parseRawData implementations ==========

/-- ESP32_RC_ESPNOW::parseRawData (src/src/esp32_rc_espnow.cpp 306-336).
The raw frame is an optional byte list (none models a null data pointer);
the length checked by the source is the buffer's length.  On null data,
wrong length, or a type outside {DATA, HEARTBEAT}, the fully zeroed message
is returned. -/
def ESP32_RC_ESPNOW.parseRawData (data : Option (List Nat)) : RCMessage_t :=
  match data with
  | none => zeroMessage
  | some bs =>
    if bs.length ≠ RC_MESSAGE_MAX_SIZE then zeroMessage
    else
      let msg : RCMessage_t :=
        { type := bs.getD 0 0, from_addr := (bs.drop 1).take RC_ADDR_SIZE,
          payload := (bs.drop 7).take RC_PAYLOAD_MAX_SIZE }
      if msg.type ≠ RCMSG_TYPE_DATA ∧ msg.type ≠ RCMSG_TYPE_HEARTBEAT then zeroMessage
      else msg

/-- ESP32_RC_ESPNOW::onDataRecvStatic (src/src/esp32_rc_espnow.cpp 260-270):
parse the raw frame, overwrite from_addr with the sender MAC reported by
ESP-NOW, and hand the result to the engine's onDataReceived with no further
check. -/
def ESP32_RC_ESPNOW.onDataRecvStatic (g : Globals) (now : Nat) (mac : List Nat)
    (data : Option (List Nat)) (e : Engine) : Engine :=
  let msg := ESP32_RC_ESPNOW.parseRawData data
  ESP32RemoteControl.onDataReceived g now { msg with from_addr := mac } e

/-- ESP32_RC_WIFI::parseRawData (src/src/esp32_rc_wifi.cpp 509-525): the
WiFi backend additionally admits its IP-discovery system type. -/
def ESP32_RC_WIFI.parseRawData (data : Option (List Nat)) : RCMessage_t :=
  match data with
  | none => zeroMessage
  | some bs =>
    if bs.length = RC_MESSAGE_MAX_SIZE ∧
        ((bs.getD 0 0) = RCMSG_TYPE_DATA ∨ (bs.getD 0 0) = RCMSG_TYPE_HEARTBEAT ∨
         (bs.getD 0 0) = RCMSG_TYPE_IP_DISCOVERY) then
      { type := bs.getD 0 0, from_addr := (bs.drop 1).take RC_ADDR_SIZE,
        payload := (bs.drop 7).take RC_PAYLOAD_MAX_SIZE }
    else zeroMessage

-- ========== Backend createBroadcastAddress implementations ==========

/-- ESP32RemoteControl::createBroadcastAddress (src/src/esp32_rc.cpp
455-458): memcpy six 0xFF bytes over the start of the address structure,
which overwrites data[0..5] and touches neither the rest of data nor the
size field. -/
def ESP32RemoteControl.createBroadcastAddress (a : RCAddress_t) : RCAddress_t :=
  { a with data := [0xFF, 0xFF, 0xFF, 0xFF, 0xFF, 0xFF] ++ a.data.drop RC_ADDR_SIZE }

/-- ESP32_RC_ESPNOW::createBroadcastAddress (src/src/esp32_rc_espnow.cpp
457-460): same six 0xFF bytes, size again untouched. -/
def ESP32_RC_ESPNOW.createBroadcastAddress (a : RCAddress_t) : RCAddress_t :=
  { a with data := [0xFF, 0xFF, 0xFF, 0xFF, 0xFF, 0xFF] ++ a.data.drop RC_ADDR_SIZE }

/-- ESP32_RC_WIFI::createBroadcastAddress (src/src/esp32_rc_wifi.cpp
544-547): pattern {255, 255, 255, 255, 0, 0}, size untouched. -/
def ESP32_RC_WIFI.createBroadcastAddress (a : RCAddress_t) : RCAddress_t :=
  { a with data := [255, 255, 255, 255, 0, 0] ++ a.data.drop RC_ADDR_SIZE }

/-- ESP32_RC_NRF24::createBroadcastAddress (src/src/esp32_rc_nrf24.cpp
266-269): pattern {0xF0, 0xF0, 0xF0, 0xF0, 0xAA, 0x00}, size untouched. -/
def ESP32_RC_NRF24.createBroadcastAddress (a : RCAddress_t) : RCAddress_t :=
  { a with data := [0xF0, 0xF0, 0xF0, 0xF0, 0xAA, 0x00] ++ a.data.drop RC_ADDR_SIZE }

-- ========== Engine operation traces ==========

/-- One engine-level operation, for stating properties over arbitrary
operation sequences. -/
inductive EngineOp where
  | connectOp
  | dataReceivedOp (now : Nat) (msg : RCMessage_t)
  | recvMsgOp
  | recvDataOp
  | checkHeartbeatOp (now : Nat)
  | heartbeatTickOp (now : Nat)
  | sendMsgOp (msg : RCMessage_t)
  | sendDataOp (p : RCPayload_t)
  deriving DecidableEq

/-- The state transformer of one engine operation (outputs discarded). -/
def stepOp (g : Globals) (e : Engine) : EngineOp → Engine
  | EngineOp.connectOp => ESP32RemoteControl.connect e
  | EngineOp.dataReceivedOp now msg => ESP32RemoteControl.onDataReceived g now msg e
  | EngineOp.recvMsgOp => (ESP32RemoteControl.recvMsg e).2
  | EngineOp.recvDataOp =>
      (ESP32RemoteControl.recvData (RCPayload_t.ofBytes (List.replicate 25 0)) e).2.2
  | EngineOp.checkHeartbeatOp now => ESP32RemoteControl.checkHeartbeat now e
  | EngineOp.heartbeatTickOp now => ESP32RemoteControl.heartbeatTimerCallback now e
  | EngineOp.sendMsgOp msg => (ESP32RemoteControl.sendMsg msg e).2
  | EngineOp.sendDataOp p => (ESP32RemoteControl.sendData p e).2

/-- Running a sequence of engine operations. -/
def runOps (g : Globals) (ops : List EngineOp) (e : Engine) : Engine :=
  ops.foldl (stepOp g) e

/-- No message sitting in the inbound queue is a heartbeat. -/
def noHeartbeatQueued (e : Engine) : Prop :=
  ∀ m ∈ e.queue_recv, m.type ≠ RCMSG_TYPE_HEARTBEAT

-- ========== Concrete sample values used in closed statements ==========

/-- A sample 6-byte sender MAC. -/
def sampleMac : List Nat := [1, 2, 3, 4, 5, 6]

/-- A sample payload exercising every field with distinct bytes. -/
def samplePayload : RCPayload_t :=
  { id1 := 10, id2 := 20, id3 := 30, id4 := 40,
    value1 := ⟨1, 2, 3, 4⟩, value2 := ⟨5, 6, 7, 8⟩, value3 := ⟨9, 10, 11, 12⟩,
    value4 := ⟨13, 14, 15, 16⟩, value5 := ⟨17, 18, 19, 20⟩, flags := 1 }

/-- A sample well-formed DATA message. -/
def dataMsgSample : RCMessage_t := buildDataMsg sampleMac samplePayload

/-- A sample heartbeat message (zero payload, per sendSysMsg). -/
def hbMsgSample : RCMessage_t :=
  { type := RCMSG_TYPE_HEARTBEAT, from_addr := sampleMac,
    payload := List.replicate RC_PAYLOAD_MAX_SIZE 0 }

/-- A sample WiFi IP-discovery system message. -/
def ipMsgSample : RCMessage_t :=
  { type := RCMSG_TYPE_IP_DISCOVERY, from_addr := sampleMac,
    payload := List.replicate RC_PAYLOAD_MAX_SIZE 0 }

/-- A 32-byte raw frame whose type byte 5 is outside the known enumeration. -/
def badFrame : List Nat := 5 :: List.replicate 31 0

/-- Global flags with both metrics booleans initially true. -/
def gBothOn : Globals := { rc_metrics_enabled := true, RC_METRICS_ENABLED := true }

-- ========== Helper lemmas ==========

theorem recvData_engine (buf : RCPayload_t) (e : Engine) :
    (ESP32RemoteControl.recvData buf e).2.2 = (ESP32RemoteControl.recvMsg e).2 := by
  unfold ESP32RemoteControl.recvData
  rcases h : ESP32RemoteControl.recvMsg e with ⟨o, e1⟩
  cases o with
  | none => simp
  | some m =>
    by_cases ht : m.type ≠ RCMSG_TYPE_DATA <;> simp [ht]

theorem recvMsg_queue_recv (e : Engine) (x : RCMessage_t)
    (hx : x ∈ (ESP32RemoteControl.recvMsg e).2.queue_recv) : x ∈ e.queue_recv := by
  unfold ESP32RemoteControl.recvMsg at hx
  cases hq : e.queue_recv with
  | nil => rw [hq] at hx; exact absurd (hq ▸ hx) (by simp)
  | cons m rest => rw [hq] at hx; simp at hx; simp [hx]

theorem mem_reliableInboundEnqueue (cap : Nat) (q : List RCMessage_t)
    (msg x : RCMessage_t) (hx : x ∈ (reliableInboundEnqueue cap q msg).2) :
    x ∈ q ∨ x = msg := by
  unfold reliableInboundEnqueue xQueueSend xQueueReceive at hx
  by_cases h1 : q.length < cap
  · simp [h1] at hx
    rcases hx with hx | hx
    · exact Or.inl hx
    · exact Or.inr hx
  · simp [h1] at hx
    cases hq : q with
    | nil => rw [hq] at hx; simp at hx
    | cons a t =>
      rw [hq] at hx
      simp at hx
      by_cases h2 : t.length < cap
      · simp [h2] at hx
        rcases hx with hx | hx
        · exact Or.inl (by simp [hx])
        · exact Or.inr hx
      · simp [h2] at hx
        exact Or.inl (by simp [hx])

theorem onDataReceived_queue_recv (g : Globals) (now : Nat) (msg : RCMessage_t)
    (e : Engine) :
    (ESP32RemoteControl.onDataReceived g now msg e).queue_recv =
      if msg.type = RCMSG_TYPE_HEARTBEAT then e.queue_recv
      else if e.fast_mode then [msg]
      else (reliableInboundEnqueue e.recv_capacity e.queue_recv msg).2 := by
  by_cases hc : e.conn_state = RCConnectionState_t.CONNECTED <;>
    by_cases ht : msg.type = RCMSG_TYPE_HEARTBEAT <;>
    by_cases hf : e.fast_mode <;>
    simp [ESP32RemoteControl.onDataReceived, ESP32RemoteControl.setPeerAddr,
      xQueueOverwrite, hc, ht, hf]

theorem onDataReceived_conn_state (g : Globals) (now : Nat) (msg : RCMessage_t)
    (e : Engine) :
    (ESP32RemoteControl.onDataReceived g now msg e).conn_state
      = RCConnectionState_t.CONNECTED := by
  by_cases hc : e.conn_state = RCConnectionState_t.CONNECTED <;>
    by_cases ht : msg.type = RCMSG_TYPE_HEARTBEAT <;>
    by_cases hf : e.fast_mode <;>
    simp [ESP32RemoteControl.onDataReceived, ESP32RemoteControl.setPeerAddr,
      xQueueOverwrite, hc, ht, hf]

theorem onDataReceived_heartbeat (g : Globals) (now : Nat) (msg : RCMessage_t)
    (e : Engine) (ht : msg.type = RCMSG_TYPE_HEARTBEAT) :
    (ESP32RemoteControl.onDataReceived g now msg e).queue_recv = e.queue_recv ∧
    (ESP32RemoteControl.onDataReceived g now msg e).callback_log = e.callback_log ∧
    (ESP32RemoteControl.onDataReceived g now msg e).recv_metrics = e.recv_metrics := by
  by_cases hc : e.conn_state = RCConnectionState_t.CONNECTED <;>
    simp [ESP32RemoteControl.onDataReceived, ESP32RemoteControl.setPeerAddr, hc, ht]

theorem onDataReceived_reliable_notfull (g : Globals) (now : Nat) (msg : RCMessage_t)
    (e : Engine) (hf : e.fast_mode = false) (ht : msg.type ≠ RCMSG_TYPE_HEARTBEAT)
    (hroom : e.queue_recv.length < e.recv_capacity) :
    (ESP32RemoteControl.onDataReceived g now msg e).queue_recv = e.queue_recv ++ [msg] ∧
    (ESP32RemoteControl.onDataReceived g now msg e).callback_log
      = e.callback_log ++ [msg] ∧
    (ESP32RemoteControl.onDataReceived g now msg e).recv_metrics
      = e.recv_metrics.addSuccess g.RC_METRICS_ENABLED := by
  by_cases hc : e.conn_state = RCConnectionState_t.CONNECTED <;>
    simp [ESP32RemoteControl.onDataReceived, ESP32RemoteControl.setPeerAddr,
      reliableInboundEnqueue, xQueueSend, reliableRecvBookkeeping, recvCommonTail,
      hc, ht, hf, hroom]

theorem onDataReceived_reliable_full (g : Globals) (now : Nat) (msg : RCMessage_t)
    (e : Engine) (hf : e.fast_mode = false) (ht : msg.type ≠ RCMSG_TYPE_HEARTBEAT)
    (hfull : e.queue_recv.length = e.recv_capacity) (hcap : 0 < e.recv_capacity) :
    (ESP32RemoteControl.onDataReceived g now msg e).queue_recv
      = e.queue_recv.tail ++ [msg] ∧
    (ESP32RemoteControl.onDataReceived g now msg e).callback_log
      = e.callback_log ++ [msg] ∧
    (ESP32RemoteControl.onDataReceived g now msg e).recv_metrics
      = e.recv_metrics.addSuccess g.RC_METRICS_ENABLED := by
  obtain ⟨a, t, hq⟩ : ∃ a t, e.queue_recv = a :: t := by
    cases hqr : e.queue_recv with
    | nil => rw [hqr] at hfull; simp at hfull; omega
    | cons a t => exact ⟨a, t, rfl⟩
  rw [hq] at hfull
  simp at hfull
  have hnotlt : ¬ (t.length + 1 < e.recv_capacity) := by omega
  have htlt : t.length < e.recv_capacity := by omega
  by_cases hc : e.conn_state = RCConnectionState_t.CONNECTED <;>
    simp [ESP32RemoteControl.onDataReceived, ESP32RemoteControl.setPeerAddr,
      reliableInboundEnqueue, xQueueSend, xQueueReceive, reliableRecvBookkeeping,
      recvCommonTail, hc, ht, hf, hnotlt, hq, htlt]

theorem stepOp_preserves_noHeartbeat (g : Globals) (e : Engine) (op : EngineOp)
    (h : noHeartbeatQueued e) : noHeartbeatQueued (stepOp g e op) := by
  cases op with
  | connectOp =>
    intro m hm
    exact h m hm
  | dataReceivedOp now msg =>
    intro m hm
    rw [stepOp, onDataReceived_queue_recv] at hm
    by_cases ht : msg.type = RCMSG_TYPE_HEARTBEAT
    · rw [if_pos ht] at hm; exact h m hm
    · rw [if_neg ht] at hm
      by_cases hf : e.fast_mode
      · simp [hf] at hm; rw [hm]; exact ht
      · simp [hf] at hm
        rcases mem_reliableInboundEnqueue _ _ _ _ hm with hmem | hmem
        · exact h m hmem
        · rw [hmem]; exact ht
  | recvMsgOp =>
    intro m hm
    exact h m (recvMsg_queue_recv e m hm)
  | recvDataOp =>
    intro m hm
    rw [stepOp, recvData_engine] at hm
    exact h m (recvMsg_queue_recv e m hm)
  | checkHeartbeatOp now =>
    intro m hm
    have hq : (ESP32RemoteControl.checkHeartbeat now e).queue_recv = e.queue_recv := by
      unfold ESP32RemoteControl.checkHeartbeat
      by_cases h1 : e.heartbeat_timeout_ms < now - e.last_heartbeat_rx_ms <;>
        by_cases h2 : e.conn_state = RCConnectionState_t.CONNECTED <;> simp [h1, h2]
    rw [stepOp, hq] at hm
    exact h m hm
  | heartbeatTickOp now =>
    intro m hm
    have hq : ∀ e1 : Engine,
        (ESP32RemoteControl.checkHeartbeat now e1).queue_recv = e1.queue_recv := by
      intro e1
      unfold ESP32RemoteControl.checkHeartbeat
      by_cases h1 : e1.heartbeat_timeout_ms < now - e1.last_heartbeat_rx_ms <;>
        by_cases h2 : e1.conn_state = RCConnectionState_t.CONNECTED <;> simp [h1, h2]
    have hs : (ESP32RemoteControl.sendSysMsg RCMSG_TYPE_HEARTBEAT e).queue_recv
        = e.queue_recv := by
      unfold ESP32RemoteControl.sendSysMsg ESP32RemoteControl.sendMsg
      by_cases hf : e.fast_mode <;>
        simp [hf, xQueueSend, xQueueOverwrite]
    rw [stepOp, ESP32RemoteControl.heartbeatTimerCallback, hq, hs] at hm
    exact h m hm
  | sendMsgOp msg =>
    intro m hm
    have hs : ((ESP32RemoteControl.sendMsg msg e).2).queue_recv = e.queue_recv := by
      unfold ESP32RemoteControl.sendMsg
      by_cases hf : e.fast_mode <;>
        simp [hf, xQueueSend, xQueueOverwrite]
    rw [stepOp, hs] at hm
    exact h m hm
  | sendDataOp p =>
    intro m hm
    have hs : ((ESP32RemoteControl.sendData p e).2).queue_recv = e.queue_recv := by
      unfold ESP32RemoteControl.sendData ESP32RemoteControl.sendMsg
      by_cases hf : e.fast_mode <;>
        simp [hf, xQueueSend, xQueueOverwrite]
    rw [stepOp, hs] at hm
    exact h m hm

theorem runOps_noHeartbeat (g : Globals) (ops : List EngineOp) :
    ∀ e : Engine, noHeartbeatQueued e → noHeartbeatQueued (runOps g ops e) := by
  induction ops with
  | nil => intro e h; exact h
  | cons op rest ih =>
    intro e h
    exact ih (stepOp g e op) (stepOp_preserves_noHeartbeat g e op h)

-- ========== Claim theorems ==========

/-- C2 (code divergence at the failing input): after
enableGlobalMetrics(false) the lowercase rc_metrics_enabled flag is off, but
the distinct extern RC_METRICS_ENABLED that Metrics_t::addSuccess and
addFailure actually consult is untouched (and is defined in no translation
unit under src/), so a subsequent addSuccess or addFailure still mutates
every counter - the updates are not no-ops as the claim states. -/
theorem C2_disable_does_not_silence_updates :
    (ESP32RemoteControl.enableGlobalMetrics false gBothOn).rc_metrics_enabled = false ∧
    (ESP32RemoteControl.enableGlobalMetrics false gBothOn).RC_METRICS_ENABLED = true ∧
    (Metrics_t.addSuccess
        (ESP32RemoteControl.enableGlobalMetrics false gBothOn).RC_METRICS_ENABLED
        (Metrics_t.init 0)).successful = 1 ∧
    (Metrics_t.addSuccess
        (ESP32RemoteControl.enableGlobalMetrics false gBothOn).RC_METRICS_ENABLED
        (Metrics_t.init 0)).total = 1 ∧
    (Metrics_t.addFailure
        (ESP32RemoteControl.enableGlobalMetrics false gBothOn).RC_METRICS_ENABLED
        (Metrics_t.init 0)).failed = 1 ∧
    (Metrics_t.addFailure
        (ESP32RemoteControl.enableGlobalMetrics false gBothOn).RC_METRICS_ENABLED
        (Metrics_t.init 0)).total = 1 := by
  decide

/-- C6: the DATA envelope built by sendData carries the payload bit-identically
in its 25-byte payload field, parsing those bytes back recovers the payload
exactly (all four id bytes, all five 32-bit float bit patterns, the flags
byte), sendData is exactly sendMsg of that envelope, and recvData on an
engine about to dequeue that envelope reports true and returns the original
payload: the envelope build/parse is a lossless round-trip. -/
theorem C6_payload_roundtrip (p : RCPayload_t) (addr : List Nat) (buf : RCPayload_t)
    (e : Engine) (rest : List RCMessage_t) :
    (buildDataMsg addr p).type = RCMSG_TYPE_DATA ∧
    (buildDataMsg addr p).payload = p.toBytes ∧
    RCPayload_t.ofBytes p.toBytes = p ∧
    ESP32RemoteControl.sendData p e
      = ESP32RemoteControl.sendMsg (buildDataMsg e.my_addr p) e ∧
    ESP32RemoteControl.recvData buf { e with queue_recv := buildDataMsg addr p :: rest }
      = (true, p, { e with queue_recv := rest }) := by
  refine ⟨rfl, rfl, rfl, rfl, ?_⟩
  simp only [ESP32RemoteControl.recvData, ESP32RemoteControl.recvMsg, buildDataMsg,
    RCMessage_t.setPayload, RCMessage_t.getPayload, RCMSG_TYPE_DATA]
  rfl

/-- C7 (counterexample): on a default-constructed RCAddress_t, the broadcast
address produced by every backend's createBroadcastAddress fails that same
backend's isBroadcast predicate, because the implementations memcpy the
byte pattern into the data field without ever setting the used length; the
WiFi and NRF24 patterns moreover contain non-0xFF bytes and fail the
predicate even with the length forced to 6. -/
theorem C7_counterexample :
    RCAddress_t.isBroadcast
      (ESP32_RC_ESPNOW.createBroadcastAddress RCAddress_t.empty) = false ∧
    RCAddress_t.isBroadcast
      (ESP32RemoteControl.createBroadcastAddress RCAddress_t.empty) = false ∧
    RCAddress_t.isBroadcast
      (ESP32_RC_WIFI.createBroadcastAddress RCAddress_t.empty) = false ∧
    RCAddress_t.isBroadcast
      (ESP32_RC_NRF24.createBroadcastAddress RCAddress_t.empty) = false ∧
    RCAddress_t.isBroadcast
      (ESP32_RC_WIFI.createBroadcastAddress { RCAddress_t.empty with size := 6 })
      = false ∧
    RCAddress_t.isBroadcast
      (ESP32_RC_NRF24.createBroadcastAddress { RCAddress_t.empty with size := 6 })
      = false := by
  decide

/-- C7 (amended): createBroadcastAddress writes the backend's broadcast byte
pattern over the first six data bytes but leaves the used length unchanged,
so on a default-constructed address (length 0) the result fails isBroadcast
for every backend; the base and ESPNOW pattern is all-0xFF, while the WiFi
and NRF24 patterns contain non-0xFF bytes and fail isBroadcast even with the
length set to 6. -/
theorem C7_amended (a : RCAddress_t) :
    (ESP32RemoteControl.createBroadcastAddress a).size = a.size ∧
    (ESP32_RC_ESPNOW.createBroadcastAddress a).size = a.size ∧
    (ESP32_RC_WIFI.createBroadcastAddress a).size = a.size ∧
    (ESP32_RC_NRF24.createBroadcastAddress a).size = a.size ∧
    (ESP32_RC_ESPNOW.createBroadcastAddress a).data.take 6
      = [0xFF, 0xFF, 0xFF, 0xFF, 0xFF, 0xFF] ∧
    (ESP32RemoteControl.createBroadcastAddress a).data.take 6
      = [0xFF, 0xFF, 0xFF, 0xFF, 0xFF, 0xFF] ∧
    RCAddress_t.isBroadcast
      (ESP32_RC_ESPNOW.createBroadcastAddress RCAddress_t.empty) = false ∧
    RCAddress_t.isBroadcast
      (ESP32_RC_WIFI.createBroadcastAddress { RCAddress_t.empty with size := 6 })
      = false ∧
    RCAddress_t.isBroadcast
      (ESP32_RC_NRF24.createBroadcastAddress { RCAddress_t.empty with size := 6 })
      = false :=
  ⟨rfl, rfl, rfl, rfl, rfl, rfl, by decide, by decide, by decide⟩

/-- C10: when the message at the front of the inbound queue has a type other
than DATA, recvData reports false, the message is irrevocably consumed from
the queue, and the caller's payload buffer is returned unmodified; a DATA
message waiting right behind such an entry is returned by the next call, so
a single recvData call can report false while data is still queued. -/
theorem C10_nondata_consumed_without_payload (buf : RCPayload_t) (e : Engine)
    (m : RCMessage_t) (rest : List RCMessage_t)
    (hq : e.queue_recv = m :: rest) (hty : m.type ≠ RCMSG_TYPE_DATA) :
    ESP32RemoteControl.recvData buf e = (false, buf, { e with queue_recv := rest }) ∧
    (∀ d rest2, rest = d :: rest2 → d.type = RCMSG_TYPE_DATA →
      ESP32RemoteControl.recvData buf { e with queue_recv := rest }
        = (true, d.getPayload, { e with queue_recv := rest2 })) := by
  constructor
  · simp [ESP32RemoteControl.recvData, ESP32RemoteControl.recvMsg, hq, hty]
  · intro d rest2 hr hd
    subst hr
    simp [ESP32RemoteControl.recvData, ESP32RemoteControl.recvMsg, hd, RCMSG_TYPE_DATA]

/-- C10 witness: with the inbound queue holding a WiFi IP-discovery system
message followed by a DATA message, the first recvData call reports false
and consumes the system message without touching the buffer, and the second
call returns the queued payload. -/
theorem C10_witness :
    ESP32RemoteControl.recvData samplePayload
        { initEngine false 0 with queue_recv := [ipMsgSample, dataMsgSample] }
      = (false, samplePayload,
          { { initEngine false 0 with queue_recv := [ipMsgSample, dataMsgSample] } with
            queue_recv := [dataMsgSample] }) ∧
    ESP32RemoteControl.recvData samplePayload
        { { initEngine false 0 with queue_recv := [ipMsgSample, dataMsgSample] } with
          queue_recv := [dataMsgSample] }
      = (true, dataMsgSample.getPayload,
          { { initEngine false 0 with queue_recv := [ipMsgSample, dataMsgSample] } with
            queue_recv := [] }) := by
  have h := C10_nondata_consumed_without_payload samplePayload
    { initEngine false 0 with queue_recv := [ipMsgSample, dataMsgSample] }
    ipMsgSample [dataMsgSample] rfl (by decide)
  exact ⟨h.1, h.2 dataMsgSample [] rfl rfl⟩

/-- C1 (counterexample): a 32-byte ESP-NOW frame whose type byte is 5
(outside the known enumeration) is turned into the fully zeroed sentinel by
parseRawData; but since the sentinel's type 0 equals DATA and the callback
path hands it to onDataReceived with no sentinel check, the engine does not
discard it: the sentinel is enqueued on the inbound queue, the receive
callback is invoked with it, a receive success is recorded, and the
connection state moves to CONNECTED - contradicting the claimed silent
discard. -/
theorem C1_counterexample :
    ESP32_RC_ESPNOW.parseRawData (some badFrame) = zeroMessage ∧
    (ESP32_RC_ESPNOW.onDataRecvStatic gBothOn 7 sampleMac (some badFrame)
        (initEngine false 0)).queue_recv
      = [{ zeroMessage with from_addr := sampleMac }] ∧
    (ESP32_RC_ESPNOW.onDataRecvStatic gBothOn 7 sampleMac (some badFrame)
        (initEngine false 0)).callback_log
      = [{ zeroMessage with from_addr := sampleMac }] ∧
    (ESP32_RC_ESPNOW.onDataRecvStatic gBothOn 7 sampleMac (some badFrame)
        (initEngine false 0)).recv_metrics.successful = 1 ∧
    (ESP32_RC_ESPNOW.onDataRecvStatic gBothOn 7 sampleMac (some badFrame)
        (initEngine false 0)).conn_state = RCConnectionState_t.CONNECTED := by
  decide

/-- C1 (amended): for every received raw frame that fails validation (null
data pointer, length not exactly 32 bytes, or a type outside the known
enumeration), parseRawData returns the fully zeroed sentinel message; but
the engine does not recognize that sentinel: its type 0 equals DATA, so on
a reliable-mode engine with inbound queue room, onDataReceived enqueues it,
invokes the receive callback with it, and sets the connection state to
CONNECTED. -/
theorem C1_amended (data : Option (List Nat))
    (hbad : data = none ∨ ∃ bs, data = some bs ∧
      (bs.length ≠ RC_MESSAGE_MAX_SIZE ∨
        (bs.getD 0 0 ≠ RCMSG_TYPE_DATA ∧ bs.getD 0 0 ≠ RCMSG_TYPE_HEARTBEAT)))
    (g : Globals) (now : Nat) (mac : List Nat) (e : Engine)
    (hfast : e.fast_mode = false)
    (hroom : e.queue_recv.length < e.recv_capacity) :
    ESP32_RC_ESPNOW.parseRawData data = zeroMessage ∧
    (ESP32_RC_ESPNOW.onDataRecvStatic g now mac data e).queue_recv
      = e.queue_recv ++ [{ zeroMessage with from_addr := mac }] ∧
    (ESP32_RC_ESPNOW.onDataRecvStatic g now mac data e).callback_log
      = e.callback_log ++ [{ zeroMessage with from_addr := mac }] ∧
    (ESP32_RC_ESPNOW.onDataRecvStatic g now mac data e).conn_state
      = RCConnectionState_t.CONNECTED := by
  have hparse : ESP32_RC_ESPNOW.parseRawData data = zeroMessage := by
    rcases hbad with hnone | ⟨bs, hbs, hfail⟩
    · rw [hnone]; rfl
    · rw [hbs]
      unfold ESP32_RC_ESPNOW.parseRawData
      dsimp only
      rcases hfail with hlen | ⟨ht0, ht3⟩
      · rw [if_pos hlen]
      · by_cases hlen : bs.length ≠ RC_MESSAGE_MAX_SIZE
        · rw [if_pos hlen]
        · rw [if_neg hlen]
          exact if_pos ⟨ht0, ht3⟩
  have hstep : ESP32_RC_ESPNOW.onDataRecvStatic g now mac data e
      = ESP32RemoteControl.onDataReceived g now
          { zeroMessage with from_addr := mac } e := by
    unfold ESP32_RC_ESPNOW.onDataRecvStatic
    rw [hparse]
  have hty : ({ zeroMessage with from_addr := mac } : RCMessage_t).type
      ≠ RCMSG_TYPE_HEARTBEAT := by
    simp [zeroMessage, RCMSG_TYPE_HEARTBEAT]
  have h := onDataReceived_reliable_notfull g now
    { zeroMessage with from_addr := mac } e hfast hty hroom
  exact ⟨hparse, by rw [hstep]; exact h.1, by rw [hstep]; exact h.2.1,
    by rw [hstep]; exact onDataReceived_conn_state g now _ e⟩

/-- C1 amended witness: the concrete invalid frame badFrame on a fresh
reliable-mode engine. -/
theorem C1_amended_witness :
    ESP32_RC_ESPNOW.parseRawData (some badFrame) = zeroMessage ∧
    (ESP32_RC_ESPNOW.onDataRecvStatic gBothOn 7 sampleMac (some badFrame)
        (initEngine false 0)).queue_recv
      = (initEngine false 0).queue_recv
          ++ [{ zeroMessage with from_addr := sampleMac }] ∧
    (ESP32_RC_ESPNOW.onDataRecvStatic gBothOn 7 sampleMac (some badFrame)
        (initEngine false 0)).callback_log
      = (initEngine false 0).callback_log
          ++ [{ zeroMessage with from_addr := sampleMac }] ∧
    (ESP32_RC_ESPNOW.onDataRecvStatic gBothOn 7 sampleMac (some badFrame)
        (initEngine false 0)).conn_state = RCConnectionState_t.CONNECTED :=
  C1_amended (some badFrame)
    (Or.inr ⟨badFrame, rfl, Or.inr (by decide)⟩)
    gBothOn 7 sampleMac (initEngine false 0) rfl (by decide)

/-- C3 (counterexample): from the reachable state Connected (reached by
connect() followed by receipt of a DATA message), a further connect() call
moves the state back to Connecting - the transition the claim rules out; and
a received message moves the state from Error to Connected, so Error is not
terminal under received traffic. -/
theorem C3_counterexample :
    (runOps gBothOn [EngineOp.connectOp, EngineOp.dataReceivedOp 1 dataMsgSample]
        (initEngine false 0)).conn_state = RCConnectionState_t.CONNECTED ∧
    (runOps gBothOn [EngineOp.connectOp, EngineOp.dataReceivedOp 1 dataMsgSample,
        EngineOp.connectOp] (initEngine false 0)).conn_state
      = RCConnectionState_t.CONNECTING ∧
    (ESP32RemoteControl.onDataReceived gBothOn 2 dataMsgSample
        { initEngine false 0 with conn_state := RCConnectionState_t.ERROR }).conn_state
      = RCConnectionState_t.CONNECTED := by
  decide

/-- C3 (amended): the engine's actual transition structure: connect() sets
the state to Connecting from any state, including Connected; onDataReceived
leaves the state Connected regardless of the prior state, including Error;
checkHeartbeat moves Connected to Disconnected exactly when the elapsed time
since the last receipt exceeds the timeout, and otherwise changes nothing;
and no queue-level operation (recvMsg, recvData, sendMsg, sendData,
sendSysMsg) changes the connection state. -/
theorem C3_amended (g : Globals) (now : Nat) (msg msg2 : RCMessage_t) (e : Engine)
    (buf : RCPayload_t) (p : RCPayload_t) (t : Nat) :
    (ESP32RemoteControl.connect e).conn_state = RCConnectionState_t.CONNECTING ∧
    (ESP32RemoteControl.onDataReceived g now msg e).conn_state
      = RCConnectionState_t.CONNECTED ∧
    (ESP32RemoteControl.checkHeartbeat now e).conn_state
      = (if e.heartbeat_timeout_ms < now - e.last_heartbeat_rx_ms ∧
            e.conn_state = RCConnectionState_t.CONNECTED
        then RCConnectionState_t.DISCONNECTED else e.conn_state) ∧
    (ESP32RemoteControl.recvMsg e).2.conn_state = e.conn_state ∧
    (ESP32RemoteControl.recvData buf e).2.2.conn_state = e.conn_state ∧
    (ESP32RemoteControl.sendMsg msg2 e).2.conn_state = e.conn_state ∧
    (ESP32RemoteControl.sendData p e).2.conn_state = e.conn_state ∧
    (ESP32RemoteControl.sendSysMsg t e).conn_state = e.conn_state := by
  refine ⟨rfl, onDataReceived_conn_state g now msg e, ?_, ?_, ?_, ?_, ?_, ?_⟩
  · unfold ESP32RemoteControl.checkHeartbeat
    by_cases h1 : e.heartbeat_timeout_ms < now - e.last_heartbeat_rx_ms <;>
      by_cases h2 : e.conn_state = RCConnectionState_t.CONNECTED <;>
      simp [h1, h2]
  · unfold ESP32RemoteControl.recvMsg
    cases hq : e.queue_recv <;> simp
  · rw [recvData_engine]
    unfold ESP32RemoteControl.recvMsg
    cases hq : e.queue_recv <;> simp
  · unfold ESP32RemoteControl.sendMsg
    by_cases hf : e.fast_mode <;> simp [hf, xQueueSend, xQueueOverwrite]
  · unfold ESP32RemoteControl.sendData ESP32RemoteControl.sendMsg
    by_cases hf : e.fast_mode <;> simp [hf, xQueueSend, xQueueOverwrite]
  · unfold ESP32RemoteControl.sendSysMsg ESP32RemoteControl.sendMsg
    by_cases hf : e.fast_mode <;> simp [hf, xQueueSend, xQueueOverwrite]

/-- C4: in reliable mode, a valid DATA message arriving while the inbound
queue is full evicts the oldest queued entry (the front) and then inserts
the new message at the back, so the newest message always ends up stored and
is never dropped in favor of older queued data; the engine records this
receipt as a success and invokes the receive callback. -/
theorem C4_newest_never_dropped (g : Globals) (now : Nat) (msg : RCMessage_t)
    (e : Engine) (hfast : e.fast_mode = false) (hty : msg.type = RCMSG_TYPE_DATA)
    (hfull : e.queue_recv.length = e.recv_capacity) (hcap : 0 < e.recv_capacity) :
    (ESP32RemoteControl.onDataReceived g now msg e).queue_recv
      = e.queue_recv.tail ++ [msg] ∧
    msg ∈ (ESP32RemoteControl.onDataReceived g now msg e).queue_recv ∧
    (ESP32RemoteControl.onDataReceived g now msg e).callback_log
      = e.callback_log ++ [msg] ∧
    (ESP32RemoteControl.onDataReceived g now msg e).recv_metrics
      = e.recv_metrics.addSuccess g.RC_METRICS_ENABLED := by
  have hne : msg.type ≠ RCMSG_TYPE_HEARTBEAT := by
    rw [hty]; decide
  have h := onDataReceived_reliable_full g now msg e hfast hne hfull hcap
  exact ⟨h.1, by rw [h.1]; simp, h.2.1, h.2.2⟩

/-- C4 witness: a fresh reliable-mode engine whose depth-10 inbound queue is
full of system messages receives the sample DATA message: the oldest entry
is evicted and the new message is stored at the back. -/
theorem C4_witness :
    (ESP32RemoteControl.onDataReceived gBothOn 9 dataMsgSample
        { initEngine false 0 with
          queue_recv := List.replicate 10 ipMsgSample }).queue_recv
      = (List.replicate 10 ipMsgSample).tail ++ [dataMsgSample] ∧
    dataMsgSample ∈ (ESP32RemoteControl.onDataReceived gBothOn 9 dataMsgSample
        { initEngine false 0 with
          queue_recv := List.replicate 10 ipMsgSample }).queue_recv :=
  have h := C4_newest_never_dropped gBothOn 9 dataMsgSample
    { initEngine false 0 with queue_recv := List.replicate 10 ipMsgSample }
    rfl rfl (by decide) (by decide)
  ⟨h.1, h.2.1⟩

/-- C5: heartbeat handling stops after liveness bookkeeping - a HEARTBEAT
message is never placed on the inbound queue, never reaches the receive
callback, and leaves the receive metrics untouched; consequently, starting
from a freshly constructed engine in either mode, no sequence of engine
operations can make recvMsg return a heartbeat-typed message (so recvData
can never surface a heartbeat either). -/
theorem C5_heartbeats_never_surfaced :
    (∀ g now msg e, msg.type = RCMSG_TYPE_HEARTBEAT →
      (ESP32RemoteControl.onDataReceived g now msg e).queue_recv = e.queue_recv ∧
      (ESP32RemoteControl.onDataReceived g now msg e).callback_log = e.callback_log ∧
      (ESP32RemoteControl.onDataReceived g now msg e).recv_metrics = e.recv_metrics) ∧
    (∀ g fm t0 ops m,
      (ESP32RemoteControl.recvMsg (runOps g ops (initEngine fm t0))).1 = some m →
      m.type ≠ RCMSG_TYPE_HEARTBEAT) := by
  constructor
  · exact fun g now msg e ht => onDataReceived_heartbeat g now msg e ht
  · intro g fm t0 ops m hm
    have hinv : noHeartbeatQueued (runOps g ops (initEngine fm t0)) :=
      runOps_noHeartbeat g ops (initEngine fm t0)
        (by intro x hx; simp [initEngine] at hx)
    have hmem : m ∈ (runOps g ops (initEngine fm t0)).queue_recv := by
      cases hq : (runOps g ops (initEngine fm t0)).queue_recv with
      | nil =>
        unfold ESP32RemoteControl.recvMsg at hm
        rw [hq] at hm
        simp at hm
      | cons a t =>
        unfold ESP32RemoteControl.recvMsg at hm
        rw [hq] at hm
        simp at hm
        simp [hm]
    exact hinv m hmem

/-- C5 witness: a heartbeat received by a fresh reliable-mode engine changes
neither the inbound queue, the callback log, nor the receive metrics; and
the message recvMsg yields after delivering one DATA message is not a
heartbeat. -/
theorem C5_witness :
    ((ESP32RemoteControl.onDataReceived gBothOn 5 hbMsgSample
        (initEngine false 0)).queue_recv = (initEngine false 0).queue_recv ∧
      (ESP32RemoteControl.onDataReceived gBothOn 5 hbMsgSample
        (initEngine false 0)).callback_log = (initEngine false 0).callback_log ∧
      (ESP32RemoteControl.onDataReceived gBothOn 5 hbMsgSample
        (initEngine false 0)).recv_metrics = (initEngine false 0).recv_metrics) ∧
    dataMsgSample.type ≠ RCMSG_TYPE_HEARTBEAT :=
  ⟨C5_heartbeats_never_surfaced.1 gBothOn 5 hbMsgSample (initEngine false 0) rfl,
   C5_heartbeats_never_surfaced.2 gBothOn false 0
     [EngineOp.dataReceivedOp 1 dataMsgSample] dataMsgSample (by decide)⟩

theorem addSuccessN_start_time (n : Nat) (m : Metrics_t) :
    (Metrics_t.addSuccessN true n m).start_time_ms = m.start_time_ms := by
  induction n with
  | zero => rfl
  | succ k ih => simp [Metrics_t.addSuccessN, Metrics_t.addSuccess, ih]

theorem addSuccessN_total (n : Nat) (m : Metrics_t) :
    (Metrics_t.addSuccessN true n m).total = m.total + n := by
  induction n with
  | zero => rfl
  | succ k ih =>
    simp [Metrics_t.addSuccessN, Metrics_t.addSuccess, ih]
    omega

/-- C8 (counterexample): a metrics record whose 100 recorded transactions all
happened at t = 500 ms - far outside any trailing 5-second window of the
query time 100000 ms - still reports a transaction rate of 1 TPS, the
since-start average total*1000/elapsed, whereas the trailing-window estimate
the claim describes yields 0 for the same history. -/
theorem C8_counterexample :
    Metrics_t.getTransactionRate
        (Metrics_t.addSuccessN true 100 (Metrics_t.init 0)) 100000 = 1 ∧
    trailingWindowRate (List.replicate 100 500) 100000 = 0 ∧
    (1 : ℚ) ≠ 0 := by
  refine ⟨?_, ?_, by norm_num⟩
  · simp only [Metrics_t.getTransactionRate, addSuccessN_start_time,
      addSuccessN_total, Metrics_t.init]
    norm_num
  · simp [trailingWindowRate, List.filter_replicate]

/-- C8 (amended): the throughput estimate of a Metric record is a since-start
average, not a trailing-window estimate: with n transactions recorded since
the record started at t0, the rate reported at time now (at least one second
later) is n*1000/(now - t0) regardless of when within that interval the
transactions occurred - recorded transactions never age out of the
estimate. -/
theorem C8_amended (n t0 now : Nat) (h : 1000 ≤ now - t0) :
    Metrics_t.getTransactionRate
        (Metrics_t.addSuccessN true n (Metrics_t.init t0)) now
      = (n * 1000 : ℚ) / ((now - t0 : Nat) : ℚ) := by
  simp only [Metrics_t.getTransactionRate, addSuccessN_start_time,
    addSuccessN_total, Metrics_t.init]
  rw [if_neg (by omega)]
  push_cast
  ring

/-- C8 amended witness: 100 transactions recorded from t0 = 0, queried at
100 seconds. -/
theorem C8_amended_witness :
    (1000 : Nat) ≤ 100000 - 0 ∧
    Metrics_t.getTransactionRate
        (Metrics_t.addSuccessN true 100 (Metrics_t.init 0)) 100000
      = (100 * 1000 : ℚ) / ((100000 - 0 : Nat) : ℚ) :=
  ⟨by norm_num, C8_amended 100 0 100000 (by norm_num)⟩

/-- C9 (counterexample): when the reliable-mode inbound path fails to enqueue
both directly and after the eviction retry (final enqueue outcome false),
the bookkeeping of src/src/esp32_rc.cpp lines 286-299 records TWO receive
failures for that single message - one in the eviction-retry block at line
288 and one in the shared failure tail at line 298 - not exactly one as
claimed; the callback is indeed not invoked. -/
theorem C9_counterexample :
    reliableEnqueueOk false false false = false ∧
    (reliableRecvBookkeeping true (reliableEnqueueOk false false false)
        (Metrics_t.init 0) [] dataMsgSample).1.failed = 2 ∧
    ¬ (reliableRecvBookkeeping true (reliableEnqueueOk false false false)
        (Metrics_t.init 0) [] dataMsgSample).1.failed = 1 ∧
    (reliableRecvBookkeeping true (reliableEnqueueOk false false false)
        (Metrics_t.init 0) [] dataMsgSample).2 = [] := by
  decide

/-- C9 (amended): in reliable mode, when a received message can be enqueued
neither directly nor after evicting the oldest entry, exactly two receive
failures are recorded on the receive Metric for that message (the failure is
double-counted by the two addFailure call sites), and the receive callback
is not invoked. -/
theorem C9_amended (ok1 evictOk ok2 : Bool)
    (hfail : reliableEnqueueOk ok1 evictOk ok2 = false)
    (m : Metrics_t) (log : List RCMessage_t) (msg : RCMessage_t) :
    (reliableRecvBookkeeping true (reliableEnqueueOk ok1 evictOk ok2)
        m log msg).1.failed = m.failed + 2 ∧
    (reliableRecvBookkeeping true (reliableEnqueueOk ok1 evictOk ok2)
        m log msg).2 = log := by
  rw [hfail]
  constructor
  · simp [reliableRecvBookkeeping, recvCommonTail, Metrics_t.addFailure]
  · simp [reliableRecvBookkeeping, recvCommonTail]

/-- C9 amended witness: the first enqueue fails, the eviction succeeds, the
retry fails again - two failures are recorded and no callback runs. -/
theorem C9_amended_witness :
    reliableEnqueueOk false true false = false ∧
    (reliableRecvBookkeeping true (reliableEnqueueOk false true false)
        (Metrics_t.init 0) [] dataMsgSample).1.failed = (Metrics_t.init 0).failed + 2 ∧
    (reliableRecvBookkeeping true (reliableEnqueueOk false true false)
        (Metrics_t.init 0) [] dataMsgSample).2 = [] :=
  ⟨rfl,
   (C9_amended false true false rfl (Metrics_t.init 0) [] dataMsgSample).1,
   (C9_amended false true false rfl (Metrics_t.init 0) [] dataMsgSample).2⟩
